import Mathlib

/-!
Verification of the Cloister arcade-machine provisioning scripts
(`arch_cloister_post_install.py`, `arch_cloister_installer.py`).

The post-install script is shallowly embedded here.  Pure string
manipulation is translated to Lean functions over `List Char` / `String`;
interaction with the operating system (command execution, file writes,
directory creation, user/service queries) is modelled by an explicit
`World` of oracles plus a trace of `Action`s, and fallible control flow
(`sys.exit`, uncaught Python exceptions) by `Except`.
-/

set_option autoImplicit false

namespace Cloister

/- ## String primitives modelling the Python operations used by the source -/

/-- Predicate `charsLead pat s`: true when `pat` is an initial segment of `s`
(character-level model of Python string prefix tests). -/
def charsLead : List Char → List Char → Bool
  | [], _ => true
  | _ :: _, [] => false
  | a :: as, b :: bs => a = b && charsLead as bs

/-- Predicate `charsHas pat s`: true when `pat` occurs contiguously inside `s`
(character-level model of Python's `pat in s`). -/
def charsHas (pat : List Char) : List Char → Bool
  | [] => charsLead pat []
  | c :: rest => charsLead pat (c :: rest) || charsHas pat rest

/-- Python `pat in s` on strings. -/
def strContains (s pat : String) : Bool := charsHas pat.data s.data

/-- Python `s.startswith(pat)` / shell-command head tests. -/
def strLead (pat s : String) : Bool := charsLead pat.data s.data

/-- Whitespace characters stripped by Python `str.strip()`. -/
def isSpaceChar (c : Char) : Bool := c = ' ' || c = '\t' || c = '\n' || c = '\r'

/-- Python `str.strip()` on the underlying character list. -/
def stripChars (l : List Char) : List Char :=
  ((l.dropWhile isSpaceChar).reverse.dropWhile isSpaceChar).reverse

/-- Python `str.strip()`. -/
def pyStrip (s : String) : String := String.mk (stripChars s.data)

/-- Split a character list at every occurrence of `c`
(Python `str.split(c)`: no empty-group merging, `split` of `[]` is `[[]]`). -/
def splitOnChar (c : Char) : List Char → List (List Char)
  | [] => [[]]
  | x :: xs =>
    match splitOnChar c xs with
    | [] => [[]]
    | g :: gs => if x = c then [] :: g :: gs else (x :: g) :: gs

/-- Python `s.split("\n")`. -/
def pySplitNl (s : String) : List String :=
  (splitOnChar '\n' s.data).map String.mk

/-- Python truthiness of a string: non-empty strings are truthy. -/
def pyTruthy (s : String) : Bool := !(s == "")

/- ## Errors, stages, outcomes -/

/-- Python-level failures surfaced by the post-install script.
`valueError` is the `ValueError` raised in `detect_windows_binary`
(line 95); `unboundLocal` is the `UnboundLocalError` raised in
`get_screen_resolution` when the never-assigned locals `width`/`height`
are read (lines 110-114).  `noPrimaryOutput` is modelled from the spec:
it is the error name the specification posits for resolution with no
primary output; the source never produces it (it exists here only so the
spec's claim can be stated and compared against the code). -/
inductive PyErr
  | valueError
  | unboundLocal
  | noPrimaryOutput
deriving DecidableEq

/-- Which source function a fatal outcome originated in (observational
instrumentation only; `validate` = `validate_game_binary`, `detect` =
`detect_windows_binary`, `resolution` = `get_screen_resolution`). -/
inductive Stage
  | validate
  | detect
  | resolution
deriving DecidableEq

/-- How a run of `main` ends when it does not complete: `exitedAt s c` is
`sys.exit(c)` raised inside stage `s`; `exnAt s e` is an uncaught Python
exception `e` propagating out of stage `s`. -/
inductive Outcome
  | exitedAt (s : Stage) (code : Nat)
  | exnAt (s : Stage) (e : PyErr)
deriving DecidableEq

/- ## Side-effect actions recorded in a trace -/

/-- Externally visible side effects of the post-install script.  `runCmd`
models `run_command`/direct `subprocess` invocations by their exact shell
command string, `makeDir` models `make_dir`, `writeFile` models
`write_file` (path, full content, executable bit).  `print` calls are not
modelled: no claim concerns stdout messages. -/
inductive Action
  | runCmd (cmd : String)
  | makeDir (path : String)
  | writeFile (path : String) (content : String) (executable : Bool)
deriving DecidableEq

/-- Does the trace write the file at `p`? -/
def isWriteOf (p : String) (a : Action) : Bool :=
  match a with
  | .writeFile q _ _ => q == p
  | _ => false

/-- Does the trace contain a `write_file` to path `p`? -/
def writesPath (tr : List Action) (p : String) : Bool := tr.any (isWriteOf p)

/-- Does the trace contain exactly the shell command `c`? -/
def runsCmd (tr : List Action) (c : String) : Bool :=
  tr.any (fun a => a == Action.runCmd c)

/-- Does the trace create directory `p`? -/
def makesDir (tr : List Action) (p : String) : Bool :=
  tr.any (fun a => a == Action.makeDir p)

/-- Does the trace run the `file -bL` signature probe (the only command of
`detect_windows_binary`)? -/
def runsFileProbe (tr : List Action) : Bool :=
  tr.any (fun a =>
    match a with
    | .runCmd c => strLead "file -bL" c
    | _ => false)

/- ## The world of OS oracles -/

/-- Ambient system state consulted by the script: `pathExists p` models
`Path(p).exists()`, `accessX p` models `os.access(p, os.X_OK)` for
non-empty `p`, `fileOutput p` is the stdout of `file -bL <p>`,
`userExists` models `pwd.getpwnam` success, `serviceActive` models the
read-only `systemctl is-active --quiet` probe, `xrandrPlain` the lines of
plain `xrandr` output (consumed by `get_screen_resolution`),
`xrandrAvailable` whether the `xrandr --query | grep | cut` pipeline can
produce output (false when the display tooling is unavailable: the shell
pipeline then has empty stdout and, because `run_command` is called with
`check=False`, raises nothing), and `xrandrQueryLines` the lines of
`xrandr --query` when available. -/
structure World where
  pathExists : String → Bool
  accessX : String → Bool
  fileOutput : String → String
  userExists : String → Bool
  serviceActive : String → Bool
  xrandrPlain : List String
  xrandrAvailable : Bool
  xrandrQueryLines : List String

/-- Model of `Path(p).exists()`: `pathlib` normalises the empty string to `"."`,
so `Path("").exists()` asks whether the current directory exists. -/
def pyPathExists (w : World) (p : String) : Bool :=
  w.pathExists (if p = "" then "." else p)

/-- Model of `os.access(p, os.X_OK)`: POSIX `access(2)` fails with `ENOENT` on the
empty pathname, so the empty string is never executable. -/
def pyAccessX (w : World) (p : String) : Bool :=
  if p = "" then false else w.accessX p

/- ## Embedding of `arch_cloister_post_install.py` -/

/-- Source lines 70-72: `get_game_bin` unconditionally returns the empty
string (its body is `return ""`). -/
def get_game_bin : String := ""

/-- Source lines 74-82: `validate_game_binary` calls `sys.exit(1)` when
the path does not exist, then when it is not executable; otherwise it
returns normally. -/
def validate_game_binary (w : World) (game_bin : String) : Except Outcome Unit :=
  if pyPathExists w game_bin = false then .error (.exitedAt .validate 1)
  else if pyAccessX w game_bin = false then .error (.exitedAt .validate 1)
  else .ok ()

/-- Source lines 84-99: the signature branch of `detect_windows_binary`,
as a function of the stdout of `file -bL <game_bin>`.  `"PE32" in stdout`
gives Windows (`true`), otherwise `"ELF" in stdout` gives Linux
(`false`), otherwise `ValueError` is raised.  The surrounding
`except subprocess.CalledProcessError` clause is dead: `run_command` is
invoked with `check=False`, which never raises `CalledProcessError`, and
the clause does not catch `ValueError`, so the `ValueError` propagates up
the call chain uncaught. -/
def detect_windows_binary (fileStdout : String) : Except PyErr Bool :=
  if strContains fileStdout "PE32" = true then .ok true
  else if strContains fileStdout "ELF" = true then .ok false
  else .error .valueError

/-- Source lines 101-114, loop of `get_screen_resolution`: for each line
of the `xrandr` output, if the line contains a star the body evaluates
`width == 0`.  Python scoping makes `width` and `height` local to the
function (both are assigned later in the body) and no assignment can
have run before that read, so the read raises `UnboundLocalError`. -/
def gsr_loop : List String → Except PyErr Unit
  | [] => .ok ()
  | l :: ls => if strContains l "*" = true then .error .unboundLocal else gsr_loop ls

/-- Source lines 101-114: `get_screen_resolution`.  If some line contains
a star, the loop body's read of the unassigned local `width` raises
`UnboundLocalError`; if no line does, the final `return width, height`
reads the same unassigned locals and raises `UnboundLocalError`. -/
def get_screen_resolution (lines : List String) : Except PyErr (Nat × Nat) :=
  match gsr_loop lines with
  | .error e => .error e
  | .ok _ => .error .unboundLocal

/-- Source lines 124-127: `disable_service` issues `systemctl disable`
only when the service is currently active. -/
def disable_service (active : Bool) (name : String) : List Action :=
  if active then [.runCmd ("systemctl disable " ++ name)] else []

/-- Source lines 129-132: `enable_service` issues `systemctl enable` only
when the service is not currently active. -/
def enable_service (active : Bool) (name : String) : List Action :=
  if active then [] else [.runCmd ("systemctl enable " ++ name)]

/-- Path of the greetd autologin configuration written by
`setup_autologin` (source line 153). -/
def autologin_conf_path : String := "/etc/greetd/config.toml"

/-- Exact content of `/etc/greetd/config.toml` (source lines 154-162). -/
def autologin_conf_content : String :=
  "[terminal]\nvt = \"next\"\n[default_session]\ncommand = \"tuigreet --user-menu --cmd startx\"\nuser = \"greeter\"\n[initial_session]\nuser = \"arcade\"\ncommand = \"startx\"\n"

/-- Source lines 148-164: `setup_autologin` creates `/etc/greetd`, writes
the autologin config, disables `sddm.service` and enables
`greetd.service`. -/
def setup_autologin (w : World) : List Action :=
  [.makeDir "/etc/greetd", .writeFile autologin_conf_path autologin_conf_content false]
    ++ disable_service (w.serviceActive "sddm.service") "sddm.service"
    ++ enable_service (w.serviceActive "greetd.service") "greetd.service"

/-- Source lines 136-139: `hide_bootloader`. -/
def hide_bootloader : List Action := [.runCmd "bootctl set-timeout 0"]

/-- Source lines 141-146: `create_arcade_user` adds the `arcade` user
only when it does not already exist. -/
def create_arcade_user (w : World) : List Action :=
  if w.userExists "arcade" then []
  else [.runCmd "useradd -m -s /bin/bash arcade", .runCmd "passwd -d arcade"]

/-- Source lines 166-170: `setup_screenshots_directory`. -/
def setup_screenshots_directory : List Action :=
  [.makeDir "/opt/screenshots", .runCmd "chmod 777 /opt/screenshots"]

/-- The `wineboot` initialization command of `setup_wine_support`
(source line 193, with its literal `arcade/` and `WINEPEFIX` typos). -/
def wine_wineboot_cmd : String :=
  "sudo -u arcade/ WINEPEFIX=\x27/home/arcade/.wine\x27 wineboot --init"

/-- Source lines 184-193: `setup_wine_support`.  With `offline` truthy it
performs nothing; otherwise it unconditionally enables the i386
architecture, creates the wine root directory (`mkdir -p`, idempotent)
and runs `wineboot --init` — there is no already-initialized marker
check anywhere in the function. -/
def setup_wine_support (offline : Bool) : List Action :=
  if offline then []
  else [.runCmd "dpkg --add-architecture i386",
        .makeDir "/home/arcade/.wine",
        .runCmd wine_wineboot_cmd]

/- ### Display resolution (source lines 195-214) -/

/-- The enumeration pipeline command run by `setup_screen_resolution`
(source line 202). -/
def xrandr_query_cmd : String :=
  "xrandr --query | grep -E \" connected| disconnected\" | cut -d\" \" -f1"

/-- Model of `grep -E " connected| disconnected"`: keeps a line when it contains
either alternative.  Note lines of disconnected outputs match the second
alternative, so they are kept too. -/
def grepConnectedPattern (l : String) : Bool :=
  strContains l " connected" || strContains l " disconnected"

/-- Model of `cut -d" " -f1`: the first space-separated field of a line. -/
def cutFirstField (l : String) : String :=
  String.mk (l.data.takeWhile (fun c => c ≠ ' '))

/-- Stdout of the pipeline on line 202: when the display tooling is
available, one line per matching `xrandr --query` line holding its first
field; when unavailable the pipeline produces no output (and, because
`check=False`, no exception — the `except subprocess.CalledProcessError`
fallback on lines 206-207 is unreachable). -/
def xrandr_pipeline_stdout (w : World) : String :=
  if w.xrandrAvailable then
    String.join (((w.xrandrQueryLines.filter grepConnectedPattern).map cutFirstField).map
      (fun f => f ++ "\n"))
  else ""

/-- Source lines 203-205: `result.stdout.strip().split("\n")` followed by
the truthiness filter `[o for o in outputs if o]`. -/
def enumerate_outputs (w : World) : List String :=
  (pySplitNl (pyStrip (xrandr_pipeline_stdout w))).filter (fun o => !(o == ""))

/-- The default output list of the unreachable fallback branch
(source line 207). -/
def default_outputs : List String := ["HDMI-1", "VGA-1", "eDP-1"]

/-- One negotiated mode assignment: the `--output <o> --mode <w>x<h>
--rate <r>` fragment appended per output on line 210. -/
structure OutputMode where
  output : String
  width : Nat
  height : Nat
  rate : Nat
deriving DecidableEq

/-- Structured view of the mode-set plan built by the loop on lines
209-210: one `OutputMode` per enumerated output, at the given
width×height and a fixed 60 Hz rate. -/
def resolution_plan (width height : Nat) (outputs : List String) : List OutputMode :=
  outputs.map (fun o => OutputMode.mk o width height 60)

/-- Rendering of one plan entry as its `xrandr` argument fragment. -/
def renderMode (m : OutputMode) : String :=
  " --output " ++ m.output ++ " --mode " ++ toString m.width ++ "x" ++ toString m.height
    ++ " --rate " ++ toString m.rate

/-- Source lines 208-210: the accumulated `xrandr` command string. -/
def xrandr_cmd (width height : Nat) (outputs : List String) : String :=
  outputs.foldl
    (fun acc o => acc ++ " --output " ++ o ++ " --mode " ++ toString width ++ "x"
      ++ toString height ++ " --rate 60")
    "xrandr"

/-- Path of the mode-set script (source lines 198, 211). -/
def resolution_script_path : String := "/home/arcade/.screenlayout/arcade_resolution.sh"

/-- Source lines 212-214: content of `arcade_resolution.sh`. -/
def resolution_script_content (width height : Nat) (outputs : List String) : String :=
  "#!/bin/bash\n" ++ xrandr_cmd width height outputs ++ "\n"

/-- Source lines 195-214: `setup_screen_resolution` — directory creation,
the enumeration pipeline, and the executable mode-set script write. -/
def setup_screen_resolution (w : World) (width height : Nat) : List Action :=
  [.makeDir "/home/arcade/.screenlayout",
   .runCmd xrandr_query_cmd,
   .writeFile resolution_script_path
     (resolution_script_content width height (enumerate_outputs w)) true]

/- ### Openbox autostart (source lines 216-247) -/

/-- Path of the Openbox autostart file (source lines 222, 229). -/
def autostart_path : String := "/home/arcade/.config/openbox/autostart"

/-- Source lines 224-227: the game invocation, wrapped in a wine virtual
desktop sized `width`x`height` when the binary is a Windows one. -/
def run_game_command (game_name : String) (is_windows_game : Bool) (width height : Nat) :
    String :=
  let base := "\"/opt/game/" ++ game_name ++ "\""
  if is_windows_game then
    "wine explorer /desktop=Arcade," ++ toString width ++ "x" ++ toString height ++ " " ++ base
  else base

/-- The restart-loop fragment of the autostart file (source lines
243-246): the game command runs in the foreground, then `sleep 1 &`
spawns the sleep in the background, and the loop repeats forever. -/
def loop_text (cmd : String) : String :=
  "while true; do\n    " ++ cmd ++ "\n    sleep 1 &\ndone\n"

/-- Source lines 230-247: exact content of the Openbox autostart file —
chrome suppression (DPMS, screensaver, blanking, cursor, font cache) and
the resolution script, each backgrounded, followed by the restart loop. -/
def autostart_content (game_name : String) (is_windows_game : Bool) (width height : Nat) :
    String :=
  "# Disable DPMS\nxset -dpms &\n# Disable screensaver\nxset s off &\n"
    ++ "# Disable screen blanking\nxset s noblank &\n# Apply the resolution\n"
    ++ resolution_script_path ++ " &\n# Hide the cursor\nunclutter -idle 0.01 -root &\n"
    ++ "# Cache all fonts to prevent the system from hanging on initial font load\n"
    ++ "fc-cache -fv &\n# Infinite loop with a check for termination\n"
    ++ loop_text (run_game_command game_name is_windows_game width height)

/-- Source lines 216-247: `setup_openbox_autostart`. -/
def setup_openbox_autostart (game_name : String) (is_windows_game : Bool)
    (width height : Nat) : List Action :=
  [.makeDir "/home/arcade/.config/openbox",
   .writeFile autostart_path (autostart_content game_name is_windows_game width height) false]

/-- Path of the Openbox configuration file (source line 256). -/
def rcxml_path : String := "/home/arcade/.config/openbox/rc.xml"

/-- Source lines 257-310: exact content of `rc.xml` with the constants
`TERMINAL_APP = qterminal` and `SCREENSHOTS_PATH = /opt/screenshots`
substituted. -/
def openbox_rcxml_content : String :=
  "<?xml version=\"1.0\" encoding=\"UTF-8\"?>\n<openbox_config>\n  <focus>\n"
    ++ "    <focusNew>yes</focusNew>\n  </focus>\n  <keyboard>\n"
    ++ "    <keybind key=\"A-F4\">\n      <action name=\"Close\"/>\n    </keybind>\n"
    ++ "    <keybind key=\"C-A-Delete\">\n      <action name=\"Execute\">\n"
    ++ "        <command>\n            openbox --exit\n        </command>\n"
    ++ "      </action>\n    </keybind>\n"
    ++ "        <keybind key=\"A-F7\">\n            <action name=\"Execute\">\n"
    ++ "                <command>qterminal</command>\n            </action>\n"
    ++ "        </keybind>\n"
    ++ "        <keybind key=\"A-F8\">\n            <action name=\"Execute\">\n"
    ++ "                <command>qterminal -e nmtui</command>\n            </action>\n"
    ++ "        </keybind>\n"
    ++ "    <keybind key=\"A-F9\">\n      <action name=\"Execute\">\n"
    ++ "        <command>qterminal -e wiremix</command>\n      </action>\n    </keybind>\n"
    ++ "    <keybind key=\"A-F10\">\n      <action name=\"Execute\">\n"
    ++ "        <command>arandr</command>\n      </action>\n    </keybind>\n"
    ++ "        <keybind key=\"A-F11\">\n            <action name=\"Execute\">\n"
    ++ "                <command>qterminal -e htop</command>\n            </action>\n"
    ++ "        </keybind>\n"
    ++ "    <keybind key=\"A-F12\">\n      <action name=\"Execute\">\n"
    ++ "        <command>scrot \x27/opt/screenshots/%Y-%m-%d-%H%M%S.png\x27</command>\n"
    ++ "      </action>\n    </keybind>\n  </keyboard>\n  <applications>\n"
    ++ "        <application name=\"qterminal\">\n            <maximized>yes</maximized>\n"
    ++ "        </application>\n  </applications>\n</openbox_config>\n"

/-- Source lines 249-310: `setup_openbox_keybindings`. -/
def setup_openbox_keybindings : List Action :=
  [.makeDir "/home/arcade/.config/openbox", .writeFile rcxml_path openbox_rcxml_content false]

/-- Source lines 312-314: `ensure_arcade_user_owns_home`. -/
def ensure_arcade_user_owns_home : List Action :=
  [.runCmd "chown -R arcade:arcade /home/arcade"]

/-- Model of `Path(p).name` for the values reachable here: `Path("")` normalises
to `Path(".")` whose `name` is the empty string; for a simple non-empty
path it is the last slash-separated component. -/
def pyPathName (p : String) : String :=
  if p = "" then "" else String.mk ((splitOnChar '/' p.data).getLastD [])

/- ### The entry point (source lines 318-338) -/

/-- Source lines 318-338: `main`.  The command line is a parameter only
for the record: `main` never invokes `parse_args` (lines 58-68), so the
arguments — including `--offline`, `--width` and `--height` — are never
read.  The sequence is: `get_game_bin` (always `""`), `setup_autologin`,
`hide_bootloader`, `create_arcade_user`, `setup_screenshots_directory`,
then `validate_game_binary` (whose `sys.exit(1)` ends the run), then the
signature probe and `detect_windows_binary`, `setup_wine_support` called
with the *game path* as its `offline` argument (line 328, evaluated by
truthiness), `get_screen_resolution` whose result is unpacked as
`height, width` (line 329 — note the swap against the function's
`return width, height`), and finally the mode-set script, keybindings,
autostart write and ownership fix. -/
def main (w : World) (_argv : List String) : List Action × Except Outcome Unit :=
  let game_bin := get_game_bin
  let tr1 := setup_autologin w ++ hide_bootloader ++ create_arcade_user w
    ++ setup_screenshots_directory
  match validate_game_binary w game_bin with
  | .error o => (tr1, .error o)
  | .ok _ =>
    let tr2 := tr1 ++ [Action.runCmd ("file -bL \x27" ++ game_bin ++ "\x27")]
    match detect_windows_binary (w.fileOutput game_bin) with
    | .error e => (tr2, .error (.exnAt .detect e))
    | .ok is_windows_game =>
      let tr3 := tr2 ++ (if is_windows_game then setup_wine_support (pyTruthy game_bin) else [])
      match get_screen_resolution w.xrandrPlain with
      | .error e => (tr3, .error (.exnAt .resolution e))
      | .ok wh =>
        let width := wh.2
        let height := wh.1
        let tr4 := tr3 ++ setup_screen_resolution w width height
          ++ setup_openbox_keybindings
          ++ setup_openbox_autostart (pyPathName game_bin) is_windows_game width height
          ++ ensure_arcade_user_owns_home
        (tr4, .ok ())

/-- A fatal outcome arising in classification (target validation or
signature detection, spec section 4.1 makes both part of the classifier
contract) or in display resolution. -/
def isClassificationOrResolutionFailure : Except Outcome Unit → Bool
  | .error (.exitedAt .validate _) => true
  | .error (.exnAt .validate _) => true
  | .error (.exitedAt .detect _) => true
  | .error (.exnAt .detect _) => true
  | .error (.exitedAt .resolution _) => true
  | .error (.exnAt .resolution _) => true
  | _ => false

/- ## Timed semantics of the generated restart loop -/

/-- One completed run of the supervised game process: how long it ran and
the status it exited with (exit code, or negated signal number — the
loop body never inspects it). -/
structure ProcExit where
  duration : Nat
  status : Int
deriving DecidableEq

/-- The delay constant named by the `sleep 1` in the generated loop. -/
def restart_delay : Nat := 1

/-- Timed semantics of `loop_text cmd` (`while true; do cmd; sleep 1 &;
done`): given the durations and statuses of the first `n` completed runs
of the game process and a start instant, the start times of all `n + 1`
launches.  The foreground game run advances the clock by its duration;
`sleep 1 &` is backgrounded, so it advances the foreground clock by
nothing and the next launch follows immediately; no branch of the loop
consults the exit status. -/
def launch_times : List ProcExit → Nat → List Nat
  | [], t => [t]
  | e :: es, t => t :: launch_times es (t + e.duration)

/- ## Shared facts about a run of `main` -/

/-- Trace of the four steps of `main` that precede target validation
(source lines 321-324): autologin config, bootloader hiding, user
creation, screenshots directory. -/
def pre_trace (w : World) : List Action :=
  setup_autologin w ++ hide_bootloader ++ create_arcade_user w ++ setup_screenshots_directory

/-- Validation of the binary returned by `get_game_bin` always exits with
status 1: `Path("")` normalises to the current directory, but the empty
path is never executable, so one of the two checks fires in every
world. -/
lemma validate_get_game_bin (w : World) :
    validate_game_binary w get_game_bin = Except.error (Outcome.exitedAt Stage.validate 1) := by
  unfold validate_game_binary get_game_bin pyPathExists pyAccessX
  cases h : w.pathExists "." <;> simp [h]

/-- Every run of `main` performs exactly the four pre-validation steps. -/
lemma main_fst (w : World) (argv : List String) : (main w argv).1 = pre_trace w := by
  simp [main, validate_get_game_bin, pre_trace]

/-- Every run of `main` ends in `sys.exit(1)` inside
`validate_game_binary`. -/
lemma main_snd (w : World) (argv : List String) :
    (main w argv).2 = Except.error (Outcome.exitedAt Stage.validate 1) := by
  simp [main, validate_get_game_bin]

/-- The only file written before validation is the autologin config. -/
lemma writesPath_pre_trace (w : World) (p : String) :
    writesPath (pre_trace w) p = (autologin_conf_path == p) := by
  simp only [pre_trace, setup_autologin, disable_service, enable_service, hide_bootloader,
    create_arcade_user, setup_screenshots_directory]
  cases w.serviceActive "sddm.service" <;> cases w.serviceActive "greetd.service" <;>
    cases w.userExists "arcade" <;> simp [writesPath, isWriteOf]

/-- The signature probe is never run before validation. -/
lemma runsFileProbe_pre_trace (w : World) : runsFileProbe (pre_trace w) = false := by
  simp only [pre_trace, setup_autologin, disable_service, enable_service, hide_bootloader,
    create_arcade_user, setup_screenshots_directory]
  cases w.serviceActive "sddm.service" <;> cases w.serviceActive "greetd.service" <;>
    cases w.userExists "arcade" <;> decide

/-- The bootloader-hiding command always runs before validation. -/
lemma runsCmd_bootctl_pre_trace (w : World) :
    runsCmd (pre_trace w) "bootctl set-timeout 0" = true := by
  simp only [pre_trace, setup_autologin, disable_service, enable_service, hide_bootloader,
    create_arcade_user, setup_screenshots_directory]
  cases w.serviceActive "sddm.service" <;> cases w.serviceActive "greetd.service" <;>
    cases w.userExists "arcade" <;> decide

/-- The screenshots directory is always created before validation. -/
lemma makesDir_screenshots_pre_trace (w : World) :
    makesDir (pre_trace w) "/opt/screenshots" = true := by
  simp only [pre_trace, setup_autologin, disable_service, enable_service, hide_bootloader,
    create_arcade_user, setup_screenshots_directory]
  cases w.serviceActive "sddm.service" <;> cases w.serviceActive "greetd.service" <;>
    cases w.userExists "arcade" <;> decide

/-- The arcade user is created before validation unless it already
exists. -/
lemma user_step_pre_trace (w : World) :
    (runsCmd (pre_trace w) "useradd -m -s /bin/bash arcade" || w.userExists "arcade") = true := by
  simp only [pre_trace, setup_autologin, disable_service, enable_service, hide_bootloader,
    create_arcade_user, setup_screenshots_directory]
  cases w.serviceActive "sddm.service" <;> cases w.serviceActive "greetd.service" <;>
    cases w.userExists "arcade" <;> decide

/-- The resolution-reading loop either finishes all lines or stops at the
first starred line with an `UnboundLocalError`. -/
lemma gsr_loop_cases (lines : List String) :
    gsr_loop lines = .ok () ∨ gsr_loop lines = .error .unboundLocal := by
  induction lines with
  | nil => exact .inl rfl
  | cons l ls ih =>
    cases h : strContains l "*"
    · simpa [gsr_loop, h] using ih
    · simp [gsr_loop, h]

/- ## Concrete worlds used by the claims -/

/-- Concrete world of a run in which classification fails on its input
contract (the validated-target precondition): every path exists, every
non-empty path is executable, no services are active, the user does not
exist yet. -/
def w0 : World :=
  ⟨fun _ => true, fun _ => true, fun _ => "", fun _ => false, fun _ => false, [], true, []⟩

/-- Output of `xrandr --query` on a machine with three connected outputs
(HDMI-1 at a native 1920x1080, DP-1 at a native 1280x1024, eDP-1) and
one disconnected output (VGA-1). -/
def xrandrLines4 : List String :=
  ["Screen 0: minimum 320 x 200, current 1920 x 1080, maximum 8192 x 8192",
   "HDMI-1 connected primary 1920x1080+0+0 (normal left inverted right x axis y axis) 509mm x 286mm",
   "   1920x1080     60.00*+",
   "DP-1 connected 1280x1024+1920+0 (normal left inverted right x axis y axis) 376mm x 301mm",
   "   1280x1024     60.02+",
   "eDP-1 connected (normal left inverted right x axis y axis)",
   "VGA-1 disconnected (normal left inverted right x axis y axis)"]

/-- World whose display has three connected outputs and one disconnected
output. -/
def w4 : World :=
  ⟨fun _ => true, fun _ => true, fun _ => "", fun _ => false, fun _ => false, [], true, xrandrLines4⟩

/-- Plain `xrandr` output with a primary output at 1280x720 whose current
mode line carries the star marker. -/
def c5_xrandr_lines : List String :=
  ["eDP-1 connected primary 1280x720+0+0 (normal left inverted right x axis y axis) 344mm x 194mm",
   "   1280x720       60.00*+"]

/-- Plain `xrandr` output with a connected output but no starred line:
no mode is marked current/primary. -/
def c6_xrandr_lines : List String :=
  ["Screen 0: minimum 320 x 200, current 1280 x 720, maximum 8192 x 8192",
   "eDP-1 connected 1280x720+0+0 (normal left inverted right x axis y axis) 344mm x 194mm",
   "   1280x720       59.97 +"]

/-- World in which the display tooling is unavailable, so the output
enumeration pipeline yields no output. -/
def wNoXrandr : World :=
  ⟨fun _ => true, fun _ => true, fun _ => "", fun _ => false, fun _ => false, [], false, []⟩

/-- Number of `wineboot --init` invocations in a trace. -/
def countWineboot (tr : List Action) : Nat :=
  tr.countP (fun a => a == Action.runCmd wine_wineboot_cmd)

/- ## Claims -/

/-- Claim C1: for a validated executable target, classification returns
Foreign (`true`) exactly when the `file -bL` signature indicates a
Windows portable executable (contains `PE32`), Native (`false`) exactly
when it indicates Linux ELF, and for any other signature it raises
`ValueError` — which the surrounding `except` clause does not catch, so
it propagates up the call chain instead of falling back to Native.  The
hypothesis records that a `file` signature names at most one executable
format. -/
theorem c1_signature_classification (out : String)
    (h : ¬(strContains out "PE32" = true ∧ strContains out "ELF" = true)) :
    (detect_windows_binary out = Except.ok true ↔ strContains out "PE32" = true)
    ∧ (detect_windows_binary out = Except.ok false ↔ strContains out "ELF" = true)
    ∧ (detect_windows_binary out = Except.error PyErr.valueError
        ↔ (strContains out "PE32" = false ∧ strContains out "ELF" = false)) := by
  unfold detect_windows_binary
  cases hp : strContains out "PE32" <;> cases he : strContains out "ELF" <;>
    simp [hp, he] at h ⊢

/-- Claim C1 witness: a concrete Windows PE32 signature is classified
Foreign. -/
theorem c1_signature_classification_witness :
    detect_windows_binary "PE32 executable (GUI) Intel 80386, for MS Windows" = Except.ok true :=
  ((c1_signature_classification "PE32 executable (GUI) Intel 80386, for MS Windows"
    (by decide)).1).mpr (by decide)

/-- Claim C2 counterexample: a concrete run on which classification fails
(the classifier's input contract `InvalidTarget`, spec section 4.1, since
`get_game_bin` returns `""`), yet the autologin config has been written —
the system is not left in its pre-provisioning state as the claim
requires. -/
theorem c2_counterexample :
    isClassificationOrResolutionFailure (main w0 []).2 = true
    ∧ writesPath (main w0 []).1 autologin_conf_path = true := by
  constructor <;> decide

/-- Claim C2 amended: every run fails in classification, and the pass
aborts before the mode-set script and the autostart file are written —
but the autologin config has already been materialized. -/
theorem c2_abort_after_autologin (w : World) (argv : List String) :
    isClassificationOrResolutionFailure (main w argv).2 = true
    ∧ writesPath (main w argv).1 resolution_script_path = false
    ∧ writesPath (main w argv).1 autostart_path = false
    ∧ writesPath (main w argv).1 autologin_conf_path = true := by
  refine ⟨?_, ?_, ?_, ?_⟩
  · rw [main_snd]; rfl
  · rw [main_fst, writesPath_pre_trace]; decide
  · rw [main_fst, writesPath_pre_trace]; decide
  · rw [main_fst, writesPath_pre_trace]; decide

/-- Claim C3: the generated restart loop relaunches after every exit
regardless of status (N exits always give N+1 launches, last conjunct),
but consecutive launches are not separated by the fixed delay: `sleep 1`
is spawned in the background, so a game run of duration `d` is followed
by a relaunch after exactly `d`, with no added delay — for an immediate
exit (duration 0, status 0) the relaunch is at the same instant, and for
a 5-second signal-killed run the relaunch is at 5, not 5 +
`restart_delay`. -/
theorem c3_restart_loop_has_no_delay :
    launch_times [ProcExit.mk 0 0] 0 = [0, 0]
    ∧ launch_times [ProcExit.mk 5 1] 0 = [0, 5]
    ∧ ∀ (es : List ProcExit) (t : Nat), (launch_times es t).length = es.length + 1 := by
  refine ⟨rfl, rfl, ?_⟩
  intro es
  induction es with
  | nil => intro t; rfl
  | cons e es ih => intro t; simp [launch_times, ih]

set_option maxRecDepth 4096 in
/-- Claim C4: with requested 1920x1080 and three connected outputs, the
plan is not three entries: the enumeration regex also matches
` disconnected` lines, so the disconnected VGA-1 receives an entry too
(four entries, one of them for VGA-1), though every entry does carry the
requested 1920x1080 at 60 Hz regardless of native modes.  The last
conjunct ties the structured plan to the `xrandr` command string actually
written into the mode-set script. -/
theorem c4_disconnected_output_in_plan :
    ((xrandrLines4.filter
        (fun l => strContains l " connected" && !(strContains l " disconnected"))).length = 3)
    ∧ enumerate_outputs w4 = ["HDMI-1", "DP-1", "eDP-1", "VGA-1"]
    ∧ resolution_plan 1920 1080 (enumerate_outputs w4) =
        [OutputMode.mk "HDMI-1" 1920 1080 60, OutputMode.mk "DP-1" 1920 1080 60,
         OutputMode.mk "eDP-1" 1920 1080 60, OutputMode.mk "VGA-1" 1920 1080 60]
    ∧ (resolution_plan 1920 1080 (enumerate_outputs w4)).length ≠ 3
    ∧ xrandr_cmd 1920 1080 (enumerate_outputs w4) =
        "xrandr" ++ String.join ((resolution_plan 1920 1080 (enumerate_outputs w4)).map renderMode) := by
  refine ⟨by decide, by decide, by decide, by decide, by decide⟩

/-- Claim C5: with width=0 and height=0 requested and a primary output at
1280x720 (starred line present), `get_screen_resolution` does not return
that mode: it raises `UnboundLocalError`, because `width` and `height`
are locals of the function that are read before any assignment. -/
theorem c5_resolution_read_raises :
    get_screen_resolution c5_xrandr_lines = Except.error PyErr.unboundLocal := rfl

/-- Claim C6 counterexample: with no output marked primary (no starred
line) and no explicit resolution requested, resolution does fail — but
with an `UnboundLocalError`, not the `NoPrimaryOutput` error the claim
names. -/
theorem c6_counterexample :
    get_screen_resolution c6_xrandr_lines = Except.error PyErr.unboundLocal
    ∧ get_screen_resolution c6_xrandr_lines ≠ Except.error PyErr.noPrimaryOutput := by
  refine ⟨rfl, ?_⟩
  rw [show get_screen_resolution c6_xrandr_lines = Except.error PyErr.unboundLocal from rfl]
  simp

/-- Claim C6 amended: resolution fails with `UnboundLocalError` — on
every input, primary output or not — and no autostart file is ever
written by a run of `main`. -/
theorem c6_resolution_fails_with_unbound_local :
    (∀ lines, get_screen_resolution lines = Except.error PyErr.unboundLocal)
    ∧ ∀ (w : World) (argv : List String), writesPath (main w argv).1 autostart_path = false := by
  constructor
  · intro lines
    unfold get_screen_resolution
    rcases gsr_loop_cases lines with h | h <;> rw [h]
  · intro w argv
    rw [main_fst, writesPath_pre_trace]; decide

/-- Claim C7: when output enumeration fails (display tooling
unavailable), the fallback to `default_outputs` never fires — because
`run_command` is called with `check=False` it raises nothing, the
`except` branch holding the default list is unreachable, the enumeration
yields the empty list, and the script written is a bare `xrandr` call:
an empty plan, not the documented non-empty default plan. -/
theorem c7_empty_plan_when_enumeration_fails :
    enumerate_outputs wNoXrandr = []
    ∧ resolution_plan 1920 1080 (enumerate_outputs wNoXrandr) = []
    ∧ setup_screen_resolution wNoXrandr 1920 1080 =
        [Action.makeDir "/home/arcade/.screenlayout", Action.runCmd xrandr_query_cmd,
         Action.writeFile resolution_script_path "#!/bin/bash\nxrandr\n" true]
    ∧ default_outputs ≠ []
    ∧ resolution_plan 1920 1080 default_outputs ≠ [] := by
  refine ⟨rfl, rfl, by decide, by decide, by decide⟩

/-- Claim C8 counterexample: two consecutive non-offline calls of
`setup_wine_support` run the `wineboot --init` initialization twice, not
exactly once — there is no already-initialized marker check. -/
theorem c8_counterexample :
    countWineboot (setup_wine_support false ++ setup_wine_support false) = 2
    ∧ countWineboot (setup_wine_support false ++ setup_wine_support false) ≠ 1 := by
  constructor <;> decide

/-- Claim C8 amended: `k` non-offline calls perform the initialization
exactly `k` times (it is unconditional; only the `mkdir -p` of the wine
root is idempotent), and an offline call performs nothing. -/
theorem c8_initialization_repeats :
    (∀ k, countWineboot (List.flatten (List.replicate k (setup_wine_support false))) = k)
    ∧ setup_wine_support true = [] := by
  constructor
  · intro k
    induction k with
    | zero => rfl
    | succ n ih =>
      rw [List.replicate_succ, List.flatten_cons]
      have h1 : countWineboot (setup_wine_support false) = 1 := by decide
      have h2 : ∀ a b : List Action, countWineboot (a ++ b) = countWineboot a + countWineboot b :=
        fun a b => by simp [countWineboot, List.countP_append]
      rw [h2, h1, ih, Nat.add_comm]
  · rfl

/-- Claim C9: the `--offline` flag does not determine anything — `main`
never invokes `parse_args`, so its behaviour is identical for any two
command lines; moreover the `offline` parameter of `setup_wine_support`
is bound at the call site (source line 328) to the truthiness of the game
path, which is `false` for the `""` returned by `get_game_bin`, so the
call would run the wine installation and initialization rather than skip
it. -/
theorem c9_offline_flag_unwired :
    (∀ (w : World) (a b : List String), main w a = main w b)
    ∧ pyTruthy get_game_bin = false
    ∧ Action.runCmd wine_wineboot_cmd ∈ setup_wine_support (pyTruthy get_game_bin) := by
  refine ⟨fun w a b => rfl, rfl, ?_⟩
  decide

/-- Claim C10: on every world and every command line, `main` exits with
status 1 inside `validate_game_binary` (the game path from `get_game_bin`
is `""`); no autostart file or mode-set script is written and the
signature probe never runs, while the autologin config write, the
bootloader command, the screenshots directory and the user-creation step
(unless the user already exists) have all executed. -/
theorem c10_main_always_exits_at_validation (w : World) (argv : List String) :
    (main w argv).2 = Except.error (Outcome.exitedAt Stage.validate 1)
    ∧ writesPath (main w argv).1 autostart_path = false
    ∧ writesPath (main w argv).1 resolution_script_path = false
    ∧ runsFileProbe (main w argv).1 = false
    ∧ writesPath (main w argv).1 autologin_conf_path = true
    ∧ runsCmd (main w argv).1 "bootctl set-timeout 0" = true
    ∧ makesDir (main w argv).1 "/opt/screenshots" = true
    ∧ (runsCmd (main w argv).1 "useradd -m -s /bin/bash arcade" || w.userExists "arcade") = true := by
  refine ⟨main_snd w argv, ?_, ?_, ?_, ?_, ?_, ?_, ?_⟩ <;> rw [main_fst]
  · rw [writesPath_pre_trace]; decide
  · rw [writesPath_pre_trace]; decide
  · exact runsFileProbe_pre_trace w
  · rw [writesPath_pre_trace]; decide
  · exact runsCmd_bootctl_pre_trace w
  · exact makesDir_screenshots_pre_trace w
  · exact user_step_pre_trace w

end Cloister
